import Mathlib

/-!
Verification of the image-processing pipeline of the BG-remover app
(`src/app.py`) against its natural-language specification.

The embedding models:
* `Bitmap` — an in-memory raster (width, height, mode, row-major pixels);
  pixel channels are exact rationals so that the alpha-blend and contrast
  formulas are stated without float rounding noise.
* `resize_image` — `app.py` lines 165-179 (the PIL `Image.resize` call with
  the LANCZOS filter is an external collaborator, passed in as `resample`;
  only the computed target dimensions are repository logic).
* the enhancement block of `process_image` (lines 197-203): PIL `SHARPEN`
  (3x3 kernel, scale 16, border rows/columns copied unchanged) and
  `ImageEnhance.Contrast(...).enhance(1.2)` (blend against a solid image
  filled with the rounded grayscale mean, alpha band preserved).
* the compositing block of `process_image` (lines 214-220): `Image.new`
  filled with the chosen color, `paste` with the foreground used as its own
  mask (per-band alpha blend), then `convert("RGB")`.
* `process_image` (lines 181-229) including its catch-all handler that
  returns `(None, None)`, and the `st.cache_data(ttl=3600)` memoization
  that caches whatever `process_image` returns.
* the upload branch of `main` (lines 304-313): the size check against
  `MAX_FILE_SIZE` happens before the cached pipeline is invoked.

External collaborators (PIL decode, rembg `remove`, LANCZOS resampling)
are parameters of the pipeline, as the spec treats them as black boxes.
-/

namespace BGRemover

/-- `MAX_FILE_SIZE = 15 * 1024 * 1024` from `app.py` line 153. -/
def MAX_FILE_SIZE : Nat := 15 * 1024 * 1024

/-- `MAX_IMAGE_DIM = 2500` from `app.py` line 154. -/
def MAX_IMAGE_DIM : Nat := 2500

/-- One RGBA pixel; channels are exact rationals (a real pixel stores each
channel in `[0,255]`). -/
structure Pixel where
  r : ℚ
  g : ℚ
  b : ℚ
  a : ℚ
  deriving DecidableEq

/-- Pixel formats that occur in the pipeline. -/
inductive Mode where
  | RGB
  | RGBA
  deriving DecidableEq

/-- An in-memory raster: width, height, pixel format, row-major buffer. -/
structure Bitmap where
  width : Nat
  height : Nat
  mode : Mode
  pixels : List Pixel
  deriving DecidableEq

/-- The `bg_color` session option: either the string sentinel
`'transparent'` or a concrete color (`app.py` lines 215, 262, 286). -/
inductive BGColor where
  | transparent
  | color (c : Pixel)
  deriving DecidableEq

/-- The `session_options` dictionary (`app.py` lines 258-265). -/
structure SessionOptions where
  alpha_matting : Bool
  fg_threshold : Nat
  bg_threshold : Nat
  bg_color : BGColor
  use_sharpen : Bool
  use_contrast : Bool
  deriving DecidableEq

/-- Clamp a channel value to the valid range `[0, 255]`. -/
def clampCh (x : ℚ) : ℚ := max 0 (min 255 x)

/-- Row-major pixel access with an out-of-range default. -/
def getPx (img : Bitmap) (x y : Nat) : Pixel :=
  img.pixels.getD (y * img.width + x) ⟨0, 0, 0, 0⟩

/-- `original_image.convert('RGBA')` — adds an opaque alpha channel
(`app.py` line 192). -/
def convert_RGBA (img : Bitmap) : Bitmap :=
  { img with mode := .RGBA,
             pixels := img.pixels.map (fun p => { p with a := 255 }) }

/-- Lines 191-192: convert to RGBA only when the mode differs. -/
def ensure_RGBA (img : Bitmap) : Bitmap :=
  if img.mode = .RGBA then img else convert_RGBA img

/-- `image.resize((w, h), LANCZOS)` — the resampling filter itself is an
external collaborator `resample`; the result has exactly the requested
dimensions and the input's mode. -/
def imageResize (resample : Bitmap → Nat → Nat → List Pixel)
    (img : Bitmap) (w h : Nat) : Bitmap :=
  { width := w, height := h, mode := img.mode, pixels := resample img w h }

/-- `resize_image` (`app.py` lines 165-179).  Python's
`int(new_width / aspect_ratio)` with `aspect_ratio = width / height`
truncates `max_dim * height / width` toward zero, which for nonnegative
values is floor — i.e. `Nat` division here. -/
def resize_image (resample : Bitmap → Nat → Nat → List Pixel)
    (image : Bitmap) (max_dim : Nat) : Bitmap :=
  if image.width ≤ max_dim ∧ image.height ≤ max_dim then image
  else if image.width > image.height then
    imageResize resample image max_dim ((max_dim * image.height) / image.width)
  else
    imageResize resample image ((max_dim * image.width) / image.height) max_dim

/-- Grayscale value of one pixel, as in PIL's `convert("L")`:
`L = (299 R + 587 G + 114 B) / 1000`. -/
def grayValue (p : Pixel) : ℚ := (299 * p.r + 587 * p.g + 114 * p.b) / 1000

/-- Mean of the grayscale image, as in `ImageStat.Stat(im.convert("L")).mean`. -/
def grayMean (img : Bitmap) : ℚ :=
  (img.pixels.map grayValue).sum / img.pixels.length

/-- The reference gray level used by `ImageEnhance.Contrast`:
`int(mean + 0.5)`. -/
def contrastMean (img : Bitmap) : ℚ := ((⌊grayMean img + 1/2⌋ : ℤ) : ℚ)

/-- Per-pixel `Image.blend(degenerate, image, factor)` with clamping to the
valid channel range (extrapolation for factor > 1 is clipped). -/
def blendPx (factor : ℚ) (d p : Pixel) : Pixel :=
  ⟨clampCh (d.r + factor * (p.r - d.r)),
   clampCh (d.g + factor * (p.g - d.g)),
   clampCh (d.b + factor * (p.b - d.b)),
   clampCh (d.a + factor * (p.a - d.a))⟩

/-- The degenerate image of `ImageEnhance.Contrast`: solid rounded gray
mean, with the original alpha channel put back. -/
def degenerate (img : Bitmap) : Bitmap :=
  { img with pixels := img.pixels.map (fun p =>
      ⟨contrastMean img, contrastMean img, contrastMean img, p.a⟩) }

/-- `ImageEnhance.Contrast(img).enhance(factor)` (`app.py` lines 202-203):
blend the degenerate solid-mean image with the original. -/
def contrastEnhance (factor : ℚ) (img : Bitmap) : Bitmap :=
  { img with pixels :=
      List.zipWith (blendPx factor) (degenerate img).pixels img.pixels }

/-- One channel of the PIL `SHARPEN` 3x3 convolution
(kernel `(-2,...,32,...,-2)`, scale 16, offset 0). -/
def sharpenCh (img : Bitmap) (x y : Nat) (f : Pixel → ℚ) : ℚ :=
  clampCh ((32 * f (getPx img x y)
    - 2 * (f (getPx img (x-1) (y-1)) + f (getPx img x (y-1))
         + f (getPx img (x+1) (y-1))
         + f (getPx img (x-1) y) + f (getPx img (x+1) y)
         + f (getPx img (x-1) (y+1)) + f (getPx img x (y+1))
         + f (getPx img (x+1) (y+1)))) / 16)

/-- One output pixel of `img.filter(ImageFilter.SHARPEN)`: border pixels are
copied unchanged, interior pixels are convolved per band (alpha included). -/
def sharpenAt (img : Bitmap) (x y : Nat) : Pixel :=
  if x = 0 ∨ y = 0 ∨ x + 1 = img.width ∨ y + 1 = img.height then
    getPx img x y
  else
    ⟨sharpenCh img x y Pixel.r, sharpenCh img x y Pixel.g,
     sharpenCh img x y Pixel.b, sharpenCh img x y Pixel.a⟩

/-- `processed_image.filter(ImageFilter.SHARPEN)` (`app.py` line 200). -/
def sharpenFilter (img : Bitmap) : Bitmap :=
  { img with pixels := (List.range (img.width * img.height)).map (fun i =>
      sharpenAt img (i % img.width) (i / img.width)) }

/-- The enhancement block of `process_image` (`app.py` lines 198-203):
sharpen if enabled, then contrast by factor 1.2 if enabled. -/
def enhance (use_sharpen use_contrast : Bool) (img : Bitmap) : Bitmap :=
  let p1 := if use_sharpen then sharpenFilter img else img
  if use_contrast then contrastEnhance (1.2 : ℚ) p1 else p1

/-- `bg_image.paste(removed, (0,0), removed)` where `bg_image` is a solid
`bg` fill: every band (alpha included) is blended with the foreground's
alpha as mask: `out = fg * (a/255) + bg * (1 - a/255)`. -/
def pasteOver (bg : Pixel) (fg : Bitmap) : Bitmap :=
  { fg with pixels := fg.pixels.map (fun p =>
      ⟨p.r * (p.a / 255) + bg.r * (1 - p.a / 255),
       p.g * (p.a / 255) + bg.g * (1 - p.a / 255),
       p.b * (p.a / 255) + bg.b * (1 - p.a / 255),
       p.a * (p.a / 255) + bg.a * (1 - p.a / 255)⟩) }

/-- `bg_image.convert("RGB")` — drops the alpha channel; the stored alpha of
an RGB-mode pixel is the opaque 255. -/
def convert_RGB (img : Bitmap) : Bitmap :=
  { img with mode := .RGB,
             pixels := img.pixels.map (fun p => { p with a := 255 }) }

/-- The compositing block of `process_image` (`app.py` lines 214-220):
a non-`'transparent'` `bg_color` is filled, pasted over and converted to
RGB; the `'transparent'` sentinel leaves the foreground untouched. -/
def composite (bg : BGColor) (removed : Bitmap) : Bitmap :=
  match bg with
  | .color c => convert_RGB (pasteOver c removed)
  | .transparent => removed

/-- `process_image` (`app.py` lines 181-229).  `decode` stands for
`Image.open`, `remove` for rembg's `remove`, `resample` for PIL's LANCZOS
resampler; each fallible collaborator returns `Except Unit`.  The Python
catch-all handler turns any stage exception into the `(None, None)`
return value (lines 224-229). -/
def process_image (resample : Bitmap → Nat → Nat → List Pixel)
    (decode : List Nat → Except Unit Bitmap)
    (remove : Bitmap → Bool → Nat → Nat → Except Unit Bitmap)
    (image_bytes : List Nat) (opts : SessionOptions) :
    Option Bitmap × Option Bitmap :=
  match decode image_bytes with
  | .error _ => (none, none)
  | .ok original =>
    let original := ensure_RGBA original
    let resized := resize_image resample original MAX_IMAGE_DIM
    let processed := enhance opts.use_sharpen opts.use_contrast resized
    match remove processed opts.alpha_matting opts.fg_threshold
        opts.bg_threshold with
    | .error _ => (none, none)
    | .ok removed =>
      let final := composite opts.bg_color removed
      (some resized, some final)

/-- The TTL of `st.cache_data(ttl=3600)` (`app.py` line 181), in seconds. -/
def CACHE_TTL : Nat := 3600

/-- Cache key of `st.cache_data`: the function arguments by value. -/
abbrev CacheKey := List Nat × SessionOptions

/-- One memoized entry of the `st.cache_data` store. -/
structure CacheEntry where
  key : CacheKey
  value : Option Bitmap × Option Bitmap
  insertedAt : Nat
  deriving DecidableEq

/-- The `st.cache_data` store for `process_image`. -/
structure CacheState where
  entries : List CacheEntry
  deriving DecidableEq

/-- Look up a non-expired entry for `key` at time `now`. -/
def cacheLookup (cache : CacheState) (key : CacheKey) (now : Nat) :
    Option (Option Bitmap × Option Bitmap) :=
  match cache.entries.find?
      (fun e => decide (e.key = key ∧ now - e.insertedAt < CACHE_TTL)) with
  | some e => some e.value
  | none => none

/-- `process_image` as wrapped by `@st.cache_data(ttl=3600)`: on a hit the
memoized value is returned; on a miss the body runs and its return value —
whatever it is, the `(None, None)` failure value included — is stored.
The third component counts how many times the body ran (0 or 1). -/
def cached_process_image (resample : Bitmap → Nat → Nat → List Pixel)
    (decode : List Nat → Except Unit Bitmap)
    (remove : Bitmap → Bool → Nat → Nat → Except Unit Bitmap)
    (now : Nat) (cache : CacheState)
    (image_bytes : List Nat) (opts : SessionOptions) :
    (Option Bitmap × Option Bitmap) × CacheState × Nat :=
  match cacheLookup cache (image_bytes, opts) now with
  | some v => (v, cache, 0)
  | none =>
    let v := process_image resample decode remove image_bytes opts
    (v, ⟨⟨(image_bytes, opts), v, now⟩ :: cache.entries⟩, 1)

/-- Outcome of the upload branch of `main`. -/
inductive UploadOutcome where
  | sizeError
  | processed (result : Option Bitmap × Option Bitmap)
  deriving DecidableEq

/-- The upload branch of `main` (`app.py` lines 304-313): the raw size is
checked against `MAX_FILE_SIZE` first; only in the `else` branch is the
cached pipeline invoked. -/
def handle_upload (resample : Bitmap → Nat → Nat → List Pixel)
    (decode : List Nat → Except Unit Bitmap)
    (remove : Bitmap → Bool → Nat → Nat → Except Unit Bitmap)
    (now : Nat) (cache : CacheState)
    (upload : List Nat) (opts : SessionOptions) :
    UploadOutcome × CacheState × Nat :=
  if upload.length > MAX_FILE_SIZE then (.sizeError, cache, 0)
  else
    let r := cached_process_image resample decode remove now cache upload opts
    (.processed r.1, r.2.1, r.2.2)

/-! Concrete collaborator stubs and inputs used by the closed evaluations. -/

/-- A resampler stub for concrete evaluations: a solid block of the
requested size. -/
def resampleZero : Bitmap → Nat → Nat → List Pixel :=
  fun _ w h => List.replicate (w * h) ⟨0, 0, 0, 0⟩

/-- A decoder stub returning a fixed bitmap. -/
def decodeBm (bm : Bitmap) : List Nat → Except Unit Bitmap := fun _ => .ok bm

/-- A decoder stub that always raises. -/
def decodeFail : List Nat → Except Unit Bitmap := fun _ => .error ()

/-- A background-remover stub returning its input. -/
def removeId : Bitmap → Bool → Nat → Nat → Except Unit Bitmap :=
  fun b _ _ _ => .ok b

/-- A 1x1 RGBA bitmap with one red-ish pixel. -/
def bm1 : Bitmap := ⟨1, 1, .RGBA, [⟨100, 0, 0, 255⟩]⟩

/-- Session options with only the contrast enhancement enabled. -/
def opts1 : SessionOptions := ⟨true, 240, 10, .transparent, false, true⟩

/-- Session options with no enhancement enabled. -/
def opts2 : SessionOptions := ⟨true, 240, 10, .transparent, false, false⟩

/-- A small raw-byte payload. -/
def bytes2 : List Nat := [1, 2, 3]

/-- A 1x1 fully transparent RGBA foreground. -/
def fgT : Bitmap := ⟨1, 1, .RGBA, [⟨0, 0, 0, 0⟩]⟩

/-- A background color whose alpha component is 0. -/
def cAlpha0 : Pixel := ⟨10, 20, 30, 0⟩

/-- A 3000 x 1999 bitmap (longer side exceeds `MAX_IMAGE_DIM`). -/
def bigBm : Bitmap :=
  ⟨3000, 1999, .RGBA, List.replicate (3000 * 1999) ⟨0, 0, 0, 255⟩⟩

/-- A 5001 x 2 bitmap with an extreme aspect ratio. -/
def wideBm : Bitmap := ⟨5001, 2, .RGBA, List.replicate (5001 * 2) ⟨0, 0, 0, 255⟩⟩

/-- An oversized payload: one byte past `MAX_FILE_SIZE`. -/
def bigBytes : List Nat := List.replicate (MAX_FILE_SIZE + 1) 0

/-! Theorems settling the claims. -/

/-- C6: compositing with the Transparent background setting is the identity
on the RGBA foreground bitmap — mode, pixel data and alpha channel are
returned unchanged. -/
theorem C6_transparent_identity (fg : Bitmap) :
    composite .transparent fg = fg := rfl

/-- C5: when both dimensions are at most `max_dim`, `resize_image` returns
the input bitmap itself — same dimensions and same pixel data. -/
theorem C5_resize_identity (resample : Bitmap → Nat → Nat → List Pixel)
    (img : Bitmap) (max_dim : Nat)
    (hw : img.width ≤ max_dim) (hh : img.height ≤ max_dim) :
    resize_image resample img max_dim = img := by
  simp [resize_image, hw, hh]

theorem C5_resize_identity_witness :
    resize_image resampleZero bm1 2500 = bm1 :=
  C5_resize_identity resampleZero bm1 2500 (by decide) (by decide)

/-- C10: the 5001 x 2 bitmap, whose aspect ratio exceeds `MAX_IMAGE_DIM`,
is resized to 2500 x 0: integer truncation drives the shorter side to 0,
so `resize_image` does not guarantee positive output dimensions. -/
theorem C10_resize_zero_dimension
    (resample : Bitmap → Nat → Nat → List Pixel) :
    (resize_image resample wideBm 2500).width = 2500 ∧
    (resize_image resample wideBm 2500).height = 0 :=
  ⟨rfl, rfl⟩

/-- C9: a payload longer than `MAX_FILE_SIZE` is rejected by the size check
of `main` before the cached pipeline runs: the outcome is the size error,
the cache is untouched, the pipeline body never runs (so no decode call
occurs — the result does not depend on `decode` at all). -/
theorem C9_size_checked_before_pipeline
    (resample : Bitmap → Nat → Nat → List Pixel)
    (decode : List Nat → Except Unit Bitmap)
    (remove : Bitmap → Bool → Nat → Nat → Except Unit Bitmap)
    (now : Nat) (cache : CacheState)
    (upload : List Nat) (opts : SessionOptions)
    (hbig : MAX_FILE_SIZE < upload.length) :
    handle_upload resample decode remove now cache upload opts =
      (.sizeError, cache, 0) := by
  simp [handle_upload, hbig]

theorem C9_size_checked_before_pipeline_witness :
    handle_upload resampleZero decodeFail removeId 0 ⟨[]⟩ bigBytes opts2 =
      (.sizeError, ⟨[]⟩, 0) :=
  C9_size_checked_before_pipeline resampleZero decodeFail removeId 0 ⟨[]⟩
    bigBytes opts2 (by simp [bigBytes])

/-- C3: a background color with alpha 0 is NOT treated as `Transparent` by
the code: `process_image` compares `bg_color` against the string sentinel
only, so the alpha-0 color is composited and converted to opaque RGB, while
the Transparent setting returns the RGBA foreground unchanged.  Evaluated
at a 1x1 fully transparent foreground and the color (10,20,30,0). -/
theorem C3_alpha_zero_composites_opaque :
    composite (.color cAlpha0) fgT ≠ composite .transparent fgT ∧
    composite (.color cAlpha0) fgT =
      { width := 1, height := 1, mode := .RGB, pixels := [⟨10, 20, 30, 255⟩] } := by
  have hev : composite (.color cAlpha0) fgT =
      { width := 1, height := 1, mode := .RGB, pixels := [⟨10, 20, 30, 255⟩] } := by
    simp only [composite, convert_RGB, pasteOver, fgT, cAlpha0, List.map_cons,
      List.map_nil]
    norm_num
  refine ⟨?_, hev⟩
  rw [hev]
  simp [composite, fgT]

/-- Evaluation helper: on the 1x1 bitmap `bm1`, both `ensure_RGBA` and the
resize step are the identity. -/
theorem resize_bm1_eval :
    resize_image resampleZero (ensure_RGBA bm1) MAX_IMAGE_DIM = bm1 := by
  norm_num [ensure_RGBA, bm1, resize_image, MAX_IMAGE_DIM]

/-- Evaluation helper: the contrast enhancement on `bm1`.  The grayscale
mean of the single pixel (100,0,0) is 29.9, rounded to 30; the red channel
becomes 30 + 1.2 * (100 - 30) = 114. -/
theorem enhance_bm1_eval :
    enhance opts1.use_sharpen opts1.use_contrast bm1 =
      ⟨1, 1, .RGBA, [⟨114, 0, 0, 255⟩]⟩ := by
  have hm : contrastMean ⟨1, 1, .RGBA, [⟨100, 0, 0, 255⟩]⟩ = 30 := by
    norm_num [contrastMean, grayMean, grayValue]
  simp only [enhance, opts1, contrastEnhance, degenerate, blendPx, bm1,
    List.map_cons, List.map_nil, List.zipWith_cons_cons, List.zipWith_nil_right,
    Bool.false_eq_true, if_false, if_true, hm]
  norm_num [clampCh, min_def, max_def]

theorem C1_counterexample :
    (process_image resampleZero (decodeBm bm1) removeId [] opts1).1 ≠
      some (enhance opts1.use_sharpen opts1.use_contrast
        (resize_image resampleZero (ensure_RGBA bm1) MAX_IMAGE_DIM)) := by
  have h1 : (process_image resampleZero (decodeBm bm1) removeId [] opts1).1 =
      some bm1 := by
    simp only [process_image, decodeBm, removeId, resize_bm1_eval]
  rw [h1, resize_bm1_eval, enhance_bm1_eval]
  simp [bm1]

/-- C1 (amended): for every pipeline request that succeeds, the first
component of the returned pair is the bitmap after resizing but BEFORE the
sharpen/contrast enhancements — `process_image` returns `resized_image`,
not `processed_image`, so enabled filter effects are not included in the
returned preprocessed image. -/
theorem C1_preprocessed_is_resized_not_enhanced
    (resample : Bitmap → Nat → Nat → List Pixel)
    (decode : List Nat → Except Unit Bitmap)
    (remove : Bitmap → Bool → Nat → Nat → Except Unit Bitmap)
    (image_bytes : List Nat) (opts : SessionOptions) (img removed : Bitmap)
    (hdec : decode image_bytes = Except.ok img)
    (hrem : remove (enhance opts.use_sharpen opts.use_contrast
          (resize_image resample (ensure_RGBA img) MAX_IMAGE_DIM))
        opts.alpha_matting opts.fg_threshold opts.bg_threshold =
        Except.ok removed) :
    process_image resample decode remove image_bytes opts =
      (some (resize_image resample (ensure_RGBA img) MAX_IMAGE_DIM),
       some (composite opts.bg_color removed)) := by
  simp [process_image, hdec, hrem]

theorem C1_preprocessed_is_resized_not_enhanced_witness :
    process_image resampleZero (decodeBm bm1) removeId [] opts1 =
      (some (resize_image resampleZero (ensure_RGBA bm1) MAX_IMAGE_DIM),
       some (composite opts1.bg_color
         (enhance opts1.use_sharpen opts1.use_contrast
           (resize_image resampleZero (ensure_RGBA bm1) MAX_IMAGE_DIM)))) :=
  C1_preprocessed_is_resized_not_enhanced resampleZero (decodeBm bm1) removeId
    [] opts1 bm1
    (enhance opts1.use_sharpen opts1.use_contrast
      (resize_image resampleZero (ensure_RGBA bm1) MAX_IMAGE_DIM))
    rfl rfl

theorem C2_counterexample :
    (cached_process_image resampleZero decodeFail removeId 0 ⟨[]⟩ bytes2
        opts2).1 = (none, none) ∧
    (cached_process_image resampleZero decodeFail removeId 0 ⟨[]⟩ bytes2
        opts2).2.2 = 1 ∧
    (cached_process_image resampleZero decodeFail removeId 100
        (cached_process_image resampleZero decodeFail removeId 0 ⟨[]⟩ bytes2
          opts2).2.1 bytes2 opts2).1 = (none, none) ∧
    (cached_process_image resampleZero decodeFail removeId 100
        (cached_process_image resampleZero decodeFail removeId 0 ⟨[]⟩ bytes2
          opts2).2.1 bytes2 opts2).2.2 = 0 :=
  ⟨rfl, rfl, rfl, rfl⟩

/-- C2 (amended): when a stage raises, `process_image` catches the
exception, reports a UI error, and returns `(None, None)` — no
`ProcessingError` with stage name and cause is produced.  Because the
function returns normally, `st.cache_data` memoizes the `(None, None)`
failure value, and an identical request within the TTL is served from the
cache without re-running the computation. -/
theorem C2_failure_memoized
    (resample : Bitmap → Nat → Nat → List Pixel)
    (decode : List Nat → Except Unit Bitmap)
    (remove : Bitmap → Bool → Nat → Nat → Except Unit Bitmap)
    (now later : Nat) (cache : CacheState)
    (image_bytes : List Nat) (opts : SessionOptions)
    (hfail : process_image resample decode remove image_bytes opts =
      (none, none))
    (hmiss : cacheLookup cache (image_bytes, opts) now = none)
    (httl : later - now < CACHE_TTL) :
    cached_process_image resample decode remove now cache image_bytes opts =
      ((none, none),
       ⟨⟨(image_bytes, opts), (none, none), now⟩ :: cache.entries⟩, 1) ∧
    cached_process_image resample decode remove later
        ⟨⟨(image_bytes, opts), (none, none), now⟩ :: cache.entries⟩
        image_bytes opts =
      ((none, none),
       ⟨⟨(image_bytes, opts), (none, none), now⟩ :: cache.entries⟩, 0) := by
  constructor
  · simp [cached_process_image, hmiss, hfail]
  · have hl : cacheLookup
        ⟨⟨(image_bytes, opts), (none, none), now⟩ :: cache.entries⟩
        (image_bytes, opts) later = some (none, none) := by
      simp [cacheLookup, List.find?_cons, httl]
    simp [cached_process_image, hl]

theorem C2_failure_memoized_witness :
    (cached_process_image resampleZero decodeFail removeId 0 ⟨[]⟩ bytes2
        opts2 =
      ((none, none), ⟨[⟨(bytes2, opts2), (none, none), 0⟩]⟩, 1)) ∧
    (cached_process_image resampleZero decodeFail removeId 100
        ⟨[⟨(bytes2, opts2), (none, none), 0⟩]⟩ bytes2 opts2 =
      ((none, none), ⟨[⟨(bytes2, opts2), (none, none), 0⟩]⟩, 0)) :=
  C2_failure_memoized resampleZero decodeFail removeId 0 100 ⟨[]⟩ bytes2
    opts2 rfl rfl (by norm_num [CACHE_TTL])

theorem C4_counterexample :
    ¬ (((resize_image resampleZero bigBm 2500).height : ℤ) =
        round ((2500 : ℚ) / ((3000 : ℚ) / (1999 : ℚ)))) := by
  have h1 : (resize_image resampleZero bigBm 2500).height = 1665 := rfl
  rw [h1]
  norm_num [round_eq]

/-- C4 (amended): when the longer side exceeds `max_dim`, the output's
longer side equals `max_dim` exactly, and the shorter side is the
TRUNCATED proportional value `⌊max_dim * shortSide / longSide⌋` (Python's
`int()` truncates; it does not round). -/
theorem C4_resize_truncates (resample : Bitmap → Nat → Nat → List Pixel)
    (img : Bitmap) (max_dim : Nat) (hh : 0 < img.height)
    (hbig : max_dim < max img.width img.height) :
    max (resize_image resample img max_dim).width
        (resize_image resample img max_dim).height = max_dim ∧
    min (resize_image resample img max_dim).width
        (resize_image resample img max_dim).height =
      (max_dim * min img.width img.height) / max img.width img.height := by
  have hcond : ¬ (img.width ≤ max_dim ∧ img.height ≤ max_dim) := by
    rcases le_or_lt img.height img.width with hcase | hcase
    · rw [max_eq_left hcase] at hbig; omega
    · rw [max_eq_right (le_of_lt hcase)] at hbig; omega
  rcases lt_or_ge img.height img.width with hlt | hge
  · have hw : 0 < img.width := lt_of_le_of_lt (Nat.zero_le _) hlt
    have hdiv : (max_dim * img.height) / img.width ≤ max_dim := by
      calc (max_dim * img.height) / img.width
          ≤ (max_dim * img.width) / img.width :=
            Nat.div_le_div_right (Nat.mul_le_mul_left _ (le_of_lt hlt))
        _ = max_dim := Nat.mul_div_cancel _ hw
    rw [resize_image, if_neg hcond, if_pos hlt]
    simp only [imageResize]
    refine ⟨?_, ?_⟩
    · exact max_eq_left hdiv
    · rw [min_eq_right hdiv, max_eq_left (le_of_lt hlt),
        min_eq_right (le_of_lt hlt)]
  · have hdiv : (max_dim * img.width) / img.height ≤ max_dim := by
      calc (max_dim * img.width) / img.height
          ≤ (max_dim * img.height) / img.height :=
            Nat.div_le_div_right (Nat.mul_le_mul_left _ hge)
        _ = max_dim := Nat.mul_div_cancel _ hh
    have hnlt : ¬ (img.width > img.height) := not_lt.mpr hge
    rw [resize_image, if_neg hcond, if_neg hnlt]
    simp only [imageResize]
    refine ⟨?_, ?_⟩
    · exact max_eq_right hdiv
    · rw [min_eq_left hdiv, max_eq_right hge, min_eq_left hge]

theorem C4_resize_truncates_witness :
    max (resize_image resampleZero bigBm 2500).width
        (resize_image resampleZero bigBm 2500).height = 2500 ∧
    min (resize_image resampleZero bigBm 2500).width
        (resize_image resampleZero bigBm 2500).height =
      (2500 * min bigBm.width bigBm.height) / max bigBm.width bigBm.height :=
  C4_resize_truncates resampleZero bigBm 2500 (by norm_num [bigBm])
    (by norm_num [bigBm])

/-- C7: compositing over a chosen background color produces an RGB-mode
bitmap in which every pixel is the alpha blend
`out = fg.rgb * (fg.a/255) + bg.rgb * (1 - fg.a/255)` with alpha 255;
no output pixel has alpha below 255. -/
theorem C7_composite_blend (fg : Bitmap) (c : Pixel) :
    (composite (.color c) fg).mode = .RGB ∧
    (composite (.color c) fg).pixels = fg.pixels.map (fun p =>
      ⟨p.r * (p.a / 255) + c.r * (1 - p.a / 255),
       p.g * (p.a / 255) + c.g * (1 - p.a / 255),
       p.b * (p.a / 255) + c.b * (1 - p.a / 255), 255⟩) ∧
    ∀ p ∈ (composite (.color c) fg).pixels, p.a = 255 := by
  refine ⟨rfl, ?_, ?_⟩
  · simp only [composite, convert_RGB, pasteOver, List.map_map]
    rfl
  · intro p hp
    simp only [composite, convert_RGB, pasteOver, List.map_map,
      List.mem_map] at hp
    obtain ⟨q, hq, hpq⟩ := hp
    rw [← hpq]
    rfl

theorem C7_composite_blend_witness :
    (composite (.color cAlpha0) fgT).mode = .RGB ∧
    (⟨10, 20, 30, 255⟩ : Pixel).a = 255 :=
  ⟨(C7_composite_blend fgT cAlpha0).1,
   (C7_composite_blend fgT cAlpha0).2.2 ⟨10, 20, 30, 255⟩ (by
     simp only [composite, convert_RGB, pasteOver, fgT, cAlpha0,
       List.map_cons, List.map_nil, List.mem_singleton]
     norm_num)⟩

/-- Helper: zipping a list with its own image under `g`. -/
theorem zipWith_map_left_self {α β γ : Type} (f : β → α → γ) (g : α → β) :
    (l : List α) → List.zipWith f (l.map g) l = l.map (fun x => f (g x) x)
  | [] => rfl
  | x :: xs => by
      simp only [List.map_cons, List.zipWith_cons_cons,
        zipWith_map_left_self f g xs]

/-- C8: the enhancement stage applies sharpen strictly before contrast when
both flags are enabled; a disabled filter is a no-op; and the contrast
filter multiplies each pixel's deviation from the (rounded grayscale-mean)
reference level by 1.2, clamped to the valid channel range, with the alpha
channel preserved up to clamping. -/
theorem C8_enhance_order_and_contrast (img : Bitmap) :
    enhance true true img = contrastEnhance (1.2 : ℚ) (sharpenFilter img) ∧
    enhance false false img = img ∧
    enhance true false img = sharpenFilter img ∧
    enhance false true img = contrastEnhance (1.2 : ℚ) img ∧
    (contrastEnhance (1.2 : ℚ) img).pixels = img.pixels.map (fun p =>
      ⟨clampCh (contrastMean img + 1.2 * (p.r - contrastMean img)),
       clampCh (contrastMean img + 1.2 * (p.g - contrastMean img)),
       clampCh (contrastMean img + 1.2 * (p.b - contrastMean img)),
       clampCh p.a⟩) := by
  refine ⟨rfl, rfl, rfl, rfl, ?_⟩
  simp only [contrastEnhance, degenerate, zipWith_map_left_self]
  congr 1
  funext p
  simp only [blendPx]
  congr 1
  ring_nf

end BGRemover
